import Mathlib

/-!
Verification of the momentum stock-ranking core.

Shallow embedding of the Python sources under `app/`: floats are modelled
as rationals (all arithmetic in the core is +, -, *, /, min, max and
comparisons, which the code applies to exact decimal constants), the
process-wide cached `Settings` object becomes an explicit argument, and
Python's stable `list.sort` becomes `List.mergeSort` (stable for the same
ordering function).
-/

namespace Momentum

/-- From `app/models/stock.py` — `StockData`: raw stock data, immutable.
`earnings_date` is modelled as an optional day ordinal (an integer), since
the code only ever subtracts dates to obtain a day count. -/
structure StockData where
  symbol : String
  sector : String
  industry : String
  price : ℚ
  market_cap : ℚ
  beta : ℚ
  volume_1d : ℚ
  volume_1w : ℚ
  avg_volume_90d : ℚ
  earnings_date : Option ℤ
  change_1d : ℚ
  perf_1w : ℚ
  perf_1m : ℚ
  perf_3m : ℚ
  perf_6m : ℚ
  perf_ytd : ℚ
  perf_1y : ℚ
  volatility_1m : ℚ
  high_52w : ℚ
  high_all_time : ℚ
  sma_50 : ℚ
  sma_200 : ℚ
  rel_volume : ℚ
  volume_change : ℚ
  indexes : String
deriving DecidableEq

/-- From `app/models/stock.py` — `ScoreComponents`: the five sub-scores. -/
structure ScoreComponents where
  price_momentum : ℚ
  volume_momentum : ℚ
  technical_strength : ℚ
  breakout_score : ℚ
  stability_score : ℚ
deriving DecidableEq

/-- From `app/config.py` — `Settings`: every configurable value, loaded once and
read-only afterwards; passed explicitly here. -/
structure Settings where
  weight_price : ℚ
  weight_volume : ℚ
  weight_technical : ℚ
  weight_breakout : ℚ
  weight_stability : ℚ
  price_weight_6m : ℚ
  price_weight_3m : ℚ
  price_weight_1m : ℚ
  price_weight_1y : ℚ
  price_weight_1w : ℚ
  volume_score_cap : ℚ
  high_52w_breakout_threshold : ℚ
  high_52w_near_threshold : ℚ
  high_52w_uptrend_threshold : ℚ
  rel_vol_breakout_threshold : ℚ
  rel_vol_near_threshold : ℚ
  mcap_mega : ℚ
  mcap_large : ℚ
  mcap_mid_high : ℚ
  mcap_mid : ℚ
  mcap_small : ℚ
  beta_stable_max : ℚ
  beta_moderate_max : ℚ
  beta_high_max : ℚ
  beta_very_high_max : ℚ
  top_stocks_count : ℕ
  earnings_exclusion_days : ℤ
deriving DecidableEq

/-- From `app/config.py` — the default values of `Settings` (the values used when
no `MOMENTUM_`-prefixed environment variable overrides them). -/
def defaultSettings : Settings where
  weight_price := 0.40
  weight_volume := 0.30
  weight_technical := 0.10
  weight_breakout := 0.10
  weight_stability := 0.10
  price_weight_6m := 0.35
  price_weight_3m := 0.25
  price_weight_1m := 0.20
  price_weight_1y := 0.10
  price_weight_1w := 0.10
  volume_score_cap := 25.0
  high_52w_breakout_threshold := 95.0
  high_52w_near_threshold := 90.0
  high_52w_uptrend_threshold := 85.0
  rel_vol_breakout_threshold := 1.5
  rel_vol_near_threshold := 1.2
  mcap_mega := 100.0
  mcap_large := 50.0
  mcap_mid_high := 20.0
  mcap_mid := 10.0
  mcap_small := 2.0
  beta_stable_max := 1.0
  beta_moderate_max := 1.5
  beta_high_max := 2.0
  beta_very_high_max := 2.5
  top_stocks_count := 20
  earnings_exclusion_days := 5

/-! ### `app/core/price_momentum.py` -/

/-- From `calculate_price_momentum`: weighted sum of the five performance
percentages. -/
def calculate_price_momentum (settings : Settings) (stock : StockData) : ℚ :=
  stock.perf_6m * settings.price_weight_6m +
  stock.perf_3m * settings.price_weight_3m +
  stock.perf_1m * settings.price_weight_1m +
  stock.perf_1y * settings.price_weight_1y +
  stock.perf_1w * settings.price_weight_1w

/-! ### `app/core/volume_momentum.py` -/

/-- From `_cap_score`: clamp a value to `[0, cap]`. -/
def cap_score (value cap : ℚ) : ℚ :=
  min (max value 0) cap

/-- From `_weekly_volume_ratio`: weekly volume ratio sub-score; the division by
`avg_volume_90d` is guarded by the `≤ 0` check. -/
def weekly_volume_ratio (stock : StockData) (cap : ℚ) : ℚ :=
  if stock.avg_volume_90d ≤ 0 then 0
  else
    let weekly_daily_avg := stock.volume_1w / 5
    let ratio := weekly_daily_avg / stock.avg_volume_90d
    if ratio > 1 then cap_score ((ratio - 1) * 10) cap else 0

/-- From `_daily_volume_ratio`: daily volume ratio sub-score, same guard. -/
def daily_volume_ratio (stock : StockData) (cap : ℚ) : ℚ :=
  if stock.avg_volume_90d ≤ 0 then 0
  else
    let ratio := stock.volume_1d / stock.avg_volume_90d
    if ratio > 1 then cap_score ((ratio - 1) * 10) cap else 0

/-- From `_relative_volume_score`: transform of the precomputed `rel_volume`. -/
def relative_volume_score (stock : StockData) (cap : ℚ) : ℚ :=
  if stock.rel_volume > 1 then cap_score ((stock.rel_volume - 1) * 10) cap else 0

/-- From `calculate_volume_momentum`: 0.40/0.30/0.30 blend of the three
sub-scores, each clamped to `[0, volume_score_cap]`. -/
def calculate_volume_momentum (settings : Settings) (stock : StockData) : ℚ :=
  let cap := settings.volume_score_cap
  weekly_volume_ratio stock cap * 0.40 +
  daily_volume_ratio stock cap * 0.30 +
  relative_volume_score stock cap * 0.30

/-! ### `app/core/technical.py` -/

/-- From `_trend_score`: price versus the two moving averages, clamped to
`[0, 50]`. -/
def trend_score (stock : StockData) : ℚ :=
  let s1 : ℚ := if stock.sma_50 > 0 then min ((stock.price / stock.sma_50 - 1) * 50) 25 else 0
  let s2 : ℚ := if stock.sma_200 > 0 then min ((stock.price / stock.sma_200 - 1) * 25) 25 else 0
  min (max (s1 + s2) 0) 50

/-- From `_proximity_52w`: 52-week-high proximity in percent, 0 when the high is
unknown; not clamped above 100. -/
def proximity_52w (stock : StockData) : ℚ :=
  if stock.high_52w ≤ 0 then 0 else stock.price / stock.high_52w * 100

/-- From `_volatility_adjustment`: tiered volatility bonus. -/
def volatility_adjustment (volatility : ℚ) : ℚ :=
  if volatility < 3 then 15.0
  else if volatility < 5 then 10.0
  else if volatility < 8 then 5.0
  else 0.0

/-- From `calculate_technical_strength`: 0.40/0.40/0.20 blend, unclamped. -/
def calculate_technical_strength (stock : StockData) : ℚ :=
  trend_score stock * 0.40 +
  proximity_52w stock * 0.40 +
  volatility_adjustment stock.volatility_1m * 0.20

/-! ### `app/core/breakout.py` -/

/-- From `calculate_breakout_score`, 52-week proximity (line 16-19): 50 when the
52-week high is unknown, else `price / high_52w * 100`. -/
def breakout_proximity_52w (stock : StockData) : ℚ :=
  if stock.high_52w ≤ 0 then 50.0 else stock.price / stock.high_52w * 100

/-- From `calculate_breakout_score`, ATH proximity (line 22-26): falls back to the
52-week proximity when there is no ATH data or the price exceeds the ATH. -/
def breakout_proximity_ath (stock : StockData) : ℚ :=
  if stock.high_all_time ≤ 0 ∨ stock.high_all_time < stock.price then
    breakout_proximity_52w stock
  else stock.price / stock.high_all_time * 100

/-- From `calculate_breakout_score`, base-score ladder (line 29-45) over the
52-week proximity and relative volume. -/
def breakout_base_score (settings : Settings) (stock : StockData) (prox52 : ℚ) : ℚ :=
  if prox52 ≥ settings.high_52w_breakout_threshold then
    if stock.rel_volume ≥ settings.rel_vol_breakout_threshold then 25.0 else 20.0
  else if prox52 ≥ settings.high_52w_near_threshold then
    if stock.rel_volume ≥ settings.rel_vol_near_threshold then 18.0 else 15.0
  else if prox52 ≥ settings.high_52w_uptrend_threshold then 12.0
  else if prox52 ≥ 70 then 8.0
  else 5.0

/-- From `calculate_breakout_score`, ATH multiplier ladder (line 49-66). -/
def ath_multiplier (prox_ath : ℚ) : ℚ :=
  if prox_ath ≥ 95 then 1.3
  else if prox_ath ≥ 85 then 1.1
  else if prox_ath ≥ 70 then 0.9
  else if prox_ath ≥ 50 then 0.7
  else if prox_ath ≥ 30 then 0.5
  else 0.3

/-- From `calculate_breakout_score`: base × ATH multiplier, capped at 30. -/
def calculate_breakout_score (settings : Settings) (stock : StockData) : ℚ :=
  let prox52 := breakout_proximity_52w stock
  let prox_ath := breakout_proximity_ath stock
  min (breakout_base_score settings stock prox52 * ath_multiplier prox_ath) 30.0

/-! ### `app/core/stability.py` -/

/-- From `_mcap_score`: market-cap tier ladder over the cap in billions. -/
def mcap_score (settings : Settings) (market_cap : ℚ) : ℚ :=
  let mcap_billions := market_cap / 1000000000
  if mcap_billions ≥ settings.mcap_mega then 20.0
  else if mcap_billions ≥ settings.mcap_large then 16.0
  else if mcap_billions ≥ settings.mcap_mid_high then 12.0
  else if mcap_billions ≥ settings.mcap_mid then 8.0
  else if mcap_billions ≥ settings.mcap_small then 5.0
  else 2.0

/-- From `_beta_score`: beta tier ladder; only the first branch has a lower
bound. -/
def beta_score (settings : Settings) (beta : ℚ) : ℚ :=
  if 0.5 ≤ beta ∧ beta ≤ settings.beta_stable_max then 15.0
  else if beta ≤ settings.beta_moderate_max then 12.0
  else if beta ≤ settings.beta_high_max then 8.0
  else if beta ≤ settings.beta_very_high_max then 4.0
  else 0.0

/-- From `calculate_stability_score`: 0.60/0.40 blend of the two tier scores. -/
def calculate_stability_score (settings : Settings) (stock : StockData) : ℚ :=
  mcap_score settings stock.market_cap * 0.60 + beta_score settings stock.beta * 0.40

/-! ### `app/core/scoring.py` -/

/-- From `calculate_components`: all five component scores of one stock. -/
def calculate_components (settings : Settings) (stock : StockData) : ScoreComponents where
  price_momentum := calculate_price_momentum settings stock
  volume_momentum := calculate_volume_momentum settings stock
  technical_strength := calculate_technical_strength stock
  breakout_score := calculate_breakout_score settings stock
  stability_score := calculate_stability_score settings stock

/-- From `calculate_total_score`: weighted total of the five components. -/
def calculate_total_score (settings : Settings) (components : ScoreComponents) : ℚ :=
  components.price_momentum * settings.weight_price +
  components.volume_momentum * settings.weight_volume +
  components.technical_strength * settings.weight_technical +
  components.breakout_score * settings.weight_breakout +
  components.stability_score * settings.weight_stability

/-! ### `app/services/confidence.py` -/

/-- From `calculate_confidence`, ATH block (line 28-41): tiered points when the
price is at or below the recorded all-time high, a flat 20 when the price
exceeds it (fresh ATH), 0 when there is no ATH data. -/
def confidence_ath_points (stock : StockData) : ℚ :=
  if stock.high_all_time > 0 ∧ stock.high_all_time ≥ stock.price then
    let ath_proximity := stock.price / stock.high_all_time
    if ath_proximity ≥ 0.95 then 20.0
    else if ath_proximity ≥ 0.85 then 15.0
    else if ath_proximity ≥ 0.70 then 10.0
    else if ath_proximity ≥ 0.50 then 5.0
    else 0.0
  else if stock.high_all_time > 0 ∧ stock.price > stock.high_all_time then 20.0
  else 0.0

/-- From `calculate_confidence`: additive signal-alignment heuristic; the Python
default `components=None` is the `none` case here. The accumulation order of
the Python code is reassociated into one sum, which is exact for rationals. -/
def calculate_confidence (stock : StockData) (components : Option ScoreComponents) : ℚ :=
  let score : ℚ :=
    (if stock.sma_50 > 0 ∧ stock.price > stock.sma_50 then 15.0 else 0) +
    (if stock.sma_200 > 0 ∧ stock.price > stock.sma_200 then 10.0 else 0) +
    (if stock.high_52w > 0 ∧ stock.price / stock.high_52w > 0.90 then 10.0 else 0) +
    confidence_ath_points stock +
    (if stock.rel_volume > 1.2 then 10.0 else 0) +
    (if stock.perf_1w > 0 ∧ stock.perf_1m > 0 ∧ stock.perf_3m > 0 ∧ stock.perf_6m > 0
      then 15.0 else 0) +
    (if stock.volatility_1m < 5 then 5.0 else 0) +
    (match components with
     | none => 0
     | some c => min ((c.price_momentum + c.volume_momentum) / 60 * 15) 15.0)
  min score 100.0

/-! ### `app/services/stock_ranker.py` -/

/-- From `_is_earnings_safe`: safe when no earnings date, else when the absolute
day distance to `today` exceeds the exclusion window. `date.today()` is
passed explicitly as a day ordinal. -/
def is_earnings_safe (stock : StockData) (today : ℤ) (days : ℤ) : Bool :=
  match stock.earnings_date with
  | none => true
  | some d => decide (|d - today| > days)

/-- From `app/models/stock.py` — `RankedStock`: one stock with its scores. -/
structure RankedStock where
  data : StockData
  components : ScoreComponents
  total_score : ℚ
  confidence : ℚ
  rank : ℕ
  is_top : Bool
  earnings_safe : Bool
deriving DecidableEq

/-- From `rank_stocks` line 50-52: one entry of the `scored` list,
`(stock, components, total)`. -/
def scoredEntry (settings : Settings) (stock : StockData) :
    StockData × ScoreComponents × ℚ :=
  let components := calculate_components settings stock
  (stock, components, calculate_total_score settings components)

/-- From `rank_stocks` line 48-52: the `scored` list. -/
def scoredList (settings : Settings) (stocks : List StockData) :
    List (StockData × ScoreComponents × ℚ) :=
  stocks.map (scoredEntry settings)

/-- From `rank_stocks` line 58: the ordering used by
`scored.sort(key=lambda x: x[2], reverse=True)` — descending in the total
score (the third tuple slot); `mergeSort` with this relation is stable
exactly as Python's sort is. -/
def scoreDescLE (a b : StockData × ScoreComponents × ℚ) : Bool :=
  decide (b.2.2 ≤ a.2.2)

/-- From `rank_stocks` line 62-73: the `RankedStock` built from the sorted entry
at 0-based position `idx` (its rank is `idx + 1`). -/
def mkRankedStock (settings : Settings) (today : ℤ) (idx : ℕ)
    (entry : StockData × ScoreComponents × ℚ) : RankedStock where
  data := entry.1
  components := entry.2.1
  total_score := entry.2.2
  confidence := calculate_confidence entry.1 (some entry.2.1)
  rank := idx + 1
  is_top := decide (idx + 1 ≤ settings.top_stocks_count)
  earnings_safe := is_earnings_safe entry.1 today settings.earnings_exclusion_days

/-- From `rank_stocks` line 62-73: enumerate the sorted list and build the
ranked stocks. -/
def rankFromSorted (settings : Settings) (today : ℤ)
    (sorted : List (StockData × ScoreComponents × ℚ)) : List RankedStock :=
  sorted.enum.map (fun p => mkRankedStock settings today p.1 p.2)

/-- From `rank_stocks`: score all stocks, sort by total descending, assign dense
1-based ranks. On the empty input the function does not return: the log
statement at line 59 evaluates `scored[0][2]` inside an f-string and raises
`IndexError`; that failure is modelled as `none`. -/
def rank_stocks (settings : Settings) (today : ℤ) (stocks : List StockData) :
    Option (List RankedStock) :=
  let scored := scoredList settings stocks
  match scored with
  | [] => none
  | _ :: _ => some (rankFromSorted settings today (List.mergeSort scored scoreDescLE))

/-! ### `app/services/analytics.py` -/

/-- From `IndustryStats`: statistics of one industry group. -/
structure IndustryStats where
  name : String
  sector : String
  count : ℕ
  avg_score : ℚ
  top_stock : String
deriving DecidableEq

/-- From `Analytics`: portfolio analytics. The Python `dict[str, int]` for the
sector distribution is modelled as an insertion-ordered association list,
which is how Python dictionaries iterate. -/
structure Analytics where
  total_stocks : ℕ
  avg_score : ℚ
  avg_confidence : ℚ
  top_20_avg_score : ℚ
  earnings_safe_count : ℕ
  trending_industries : List IndustryStats
  sector_distribution : List (String × ℕ)
  top_movers : List String
  top_movers_1w : List String
  top_movers_1m : List String
  top_movers_6m : List String
  volume_leaders : List String
  breakout_candidates : List String
deriving DecidableEq

/-- From `_get_trending_industries` line 43-49: group the stocks by industry;
Python dictionaries preserve the order industries are first seen, and each
group lists its stocks in input order. -/
def groupByIndustry (stocks : List RankedStock) : List (String × List RankedStock) :=
  stocks.foldl (fun acc stock =>
    if acc.any (fun p => p.1 == stock.data.industry) then
      acc.map (fun p => if p.1 = stock.data.industry then (p.1, p.2 ++ [stock]) else p)
    else acc ++ [(stock.data.industry, [stock])]) []

/-- From `min(ind_stocks, key=lambda s: s.rank)`: the first stock of minimal
rank, `none` on the empty list. -/
def minByRank (l : List RankedStock) : Option RankedStock :=
  l.foldl (fun acc s =>
    match acc with
    | none => some s
    | some m => if s.rank < m.rank then some s else some m) none

/-- From `_get_trending_industries`: keep industries with at least two stocks,
average their scores, sort by average descending (stable) and keep the
first `limit`. -/
def get_trending_industries (stocks : List RankedStock) (limit : ℕ) :
    List IndustryStats :=
  let stats := (groupByIndustry stocks).filterMap (fun p =>
    if p.2.length < 2 then none
    else
      match minByRank p.2 with
      | none => none
      | some top =>
          some { name := p.1, sector := top.data.sector, count := p.2.length,
                 avg_score := (p.2.map (·.total_score)).sum / (p.2.length : ℚ),
                 top_stock := top.data.symbol })
  (List.mergeSort stats (fun a b => decide (b.avg_score ≤ a.avg_score))).take limit

/-- From `sorted(stocks, key=key, reverse=True)`: Python's stable descending
sort by a rational key. -/
def sortedDescBy (key : RankedStock → ℚ) (stocks : List RankedStock) :
    List RankedStock :=
  List.mergeSort stocks (fun a b => decide (key b ≤ key a))

/-- From `_get_top_movers_1w`: symbols of the `limit` highest 1-week performers. -/
def get_top_movers_1w (stocks : List RankedStock) (limit : ℕ) : List String :=
  ((sortedDescBy (fun s => s.data.perf_1w) stocks).take limit).map (·.data.symbol)

/-- From `_get_top_movers_1m`: symbols of the `limit` highest 1-month performers. -/
def get_top_movers_1m (stocks : List RankedStock) (limit : ℕ) : List String :=
  ((sortedDescBy (fun s => s.data.perf_1m) stocks).take limit).map (·.data.symbol)

/-- From `_get_top_movers_6m`: symbols of the `limit` highest 6-month performers. -/
def get_top_movers_6m (stocks : List RankedStock) (limit : ℕ) : List String :=
  ((sortedDescBy (fun s => s.data.perf_6m) stocks).take limit).map (·.data.symbol)

/-- From `_get_volume_leaders`: symbols of the `limit` highest relative volumes. -/
def get_volume_leaders (stocks : List RankedStock) (limit : ℕ) : List String :=
  ((sortedDescBy (fun s => s.data.rel_volume) stocks).take limit).map (·.data.symbol)

/-- From `_get_breakout_candidates` line 107-110: the proximity key, 0 when the
52-week high is unknown. -/
def candidate_proximity (s : RankedStock) : ℚ :=
  if s.data.high_52w ≤ 0 then 0 else s.data.price / s.data.high_52w

/-- From `_get_breakout_candidates`: symbols of the `limit` stocks nearest their
52-week high. -/
def get_breakout_candidates (stocks : List RankedStock) (limit : ℕ) : List String :=
  ((sortedDescBy candidate_proximity stocks).take limit).map (·.data.symbol)

/-- From `_get_sector_distribution`: `Counter` over sectors (first-encounter
order). -/
def sectorCounts (stocks : List RankedStock) : List (String × ℕ) :=
  stocks.foldl (fun acc stock =>
    if acc.any (fun p => p.1 == stock.data.sector) then
      acc.map (fun p => if p.1 = stock.data.sector then (p.1, p.2 + 1) else p)
    else acc ++ [(stock.data.sector, 1)]) []

/-- From `calculate_analytics`: the all-zero/empty summary on the empty
collection (line 122-129), the aggregate statistics otherwise. -/
def calculate_analytics (stocks : List RankedStock) : Analytics :=
  match stocks with
  | [] =>
    { total_stocks := 0, avg_score := 0, avg_confidence := 0, top_20_avg_score := 0,
      earnings_safe_count := 0, trending_industries := [], sector_distribution := [],
      top_movers := [], top_movers_1w := [], top_movers_1m := [], top_movers_6m := [],
      volume_leaders := [], breakout_candidates := [] }
  | _ :: _ =>
    let top_20 := stocks.filter (·.is_top)
    let movers_1w := get_top_movers_1w stocks 5
    { total_stocks := stocks.length,
      avg_score := (stocks.map (·.total_score)).sum / (stocks.length : ℚ),
      avg_confidence := (stocks.map (·.confidence)).sum / (stocks.length : ℚ),
      top_20_avg_score :=
        if top_20.isEmpty then 0
        else (top_20.map (·.total_score)).sum / (top_20.length : ℚ),
      earnings_safe_count := (stocks.filter (·.earnings_safe)).length,
      trending_industries := get_trending_industries stocks 5,
      sector_distribution := sectorCounts stocks,
      top_movers := movers_1w,
      top_movers_1w := movers_1w,
      top_movers_1m := get_top_movers_1m stocks 5,
      top_movers_6m := get_top_movers_6m stocks 5,
      volume_leaders := get_volume_leaders stocks 5,
      breakout_candidates := get_breakout_candidates stocks 5 }

/-! ### Concrete records used by witnesses and counterexamples -/

/-- A well-formed record with every numeric field 0 (the documented default)
and no earnings date. -/
def zeroStock : StockData where
  symbol := "ZERO"
  sector := ""
  industry := ""
  price := 0
  market_cap := 0
  beta := 0
  volume_1d := 0
  volume_1w := 0
  avg_volume_90d := 0
  earnings_date := none
  change_1d := 0
  perf_1w := 0
  perf_1m := 0
  perf_3m := 0
  perf_6m := 0
  perf_ytd := 0
  perf_1y := 0
  volatility_1m := 0
  high_52w := 0
  high_all_time := 0
  sma_50 := 0
  sma_200 := 0
  rel_volume := 0
  volume_change := 0
  indexes := ""

/-- A record whose 52-week proximity is 82% (between 80% and 85%). -/
def stock82pct : StockData :=
  { zeroStock with price := 82, high_52w := 100 }

/-- Components with a strongly negative price momentum, as produced for a
record whose performance percentages are all very negative. -/
def negativeComponents : ScoreComponents :=
  { price_momentum := -600, volume_momentum := 0, technical_strength := 0,
    breakout_score := 0, stability_score := 0 }

/-! ### Theorems -/

/-- Helper: the breakout base-score ladder only produces the values
25, 20, 18, 15, 12, 8 and 5, so it is at least 5. -/
theorem breakout_base_score_ge_five (settings : Settings) (stock : StockData)
    (prox52 : ℚ) : 5 ≤ breakout_base_score settings stock prox52 := by
  unfold breakout_base_score
  split_ifs <;> norm_num

/-- Helper: the ATH multiplier ladder only produces 1.3, 1.1, 0.9, 0.7, 0.5
and 0.3, so it lies in `[3/10, 13/10]`. -/
theorem ath_multiplier_bounds (prox_ath : ℚ) :
    3/10 ≤ ath_multiplier prox_ath ∧ ath_multiplier prox_ath ≤ 13/10 := by
  unfold ath_multiplier
  split_ifs <;> norm_num

/-- C6: for every settings and record the breakout score lies in `[0, 30]`:
it is `min (base × multiplier) 30` with base ≥ 5 > 0 and multiplier ≥ 0.3 > 0. -/
theorem breakout_score_in_range (settings : Settings) (stock : StockData) :
    0 ≤ calculate_breakout_score settings stock ∧
    calculate_breakout_score settings stock ≤ 30 := by
  have hrw : calculate_breakout_score settings stock =
      min (breakout_base_score settings stock (breakout_proximity_52w stock) *
        ath_multiplier (breakout_proximity_ath stock)) 30.0 := rfl
  rw [hrw]
  have hb := breakout_base_score_ge_five settings stock (breakout_proximity_52w stock)
  have hm := (ath_multiplier_bounds (breakout_proximity_ath stock)).1
  have hbase : (0:ℚ) ≤ breakout_base_score settings stock (breakout_proximity_52w stock) := by
    linarith
  refine ⟨le_min (mul_nonneg hbase (by linarith)) (by norm_num), ?_⟩
  have h30 : (30.0:ℚ) ≤ 30 := by norm_num
  exact le_trans (min_le_right _ _) h30

/-- C10: for every settings and record the breakout score is at least 1.5
(= 5 × 0.3), hence strictly positive: a strictly tighter lower bound than
the documented `[0, 30]`. -/
theorem breakout_score_ge_three_halves (settings : Settings) (stock : StockData) :
    3/2 ≤ calculate_breakout_score settings stock ∧
    0 < calculate_breakout_score settings stock := by
  have hb := breakout_base_score_ge_five settings stock (breakout_proximity_52w stock)
  have hm := (ath_multiplier_bounds (breakout_proximity_ath stock)).1
  have key : (3:ℚ)/2 ≤ calculate_breakout_score settings stock := by
    have hrw : calculate_breakout_score settings stock =
        min (breakout_base_score settings stock (breakout_proximity_52w stock) *
          ath_multiplier (breakout_proximity_ath stock)) 30.0 := rfl
    rw [hrw]
    refine le_min ?_ (by norm_num)
    calc (3:ℚ)/2 = 5 * (3/10) := by norm_num
    _ ≤ breakout_base_score settings stock (breakout_proximity_52w stock) *
          ath_multiplier (breakout_proximity_ath stock) :=
        mul_le_mul hb hm (by norm_num) (by linarith)
  exact ⟨key, by linarith⟩

/-- C7: when `avg_volume_90d ≤ 0` the two volume sub-scores that divide by
it are 0 by the explicit guard, not an error. -/
theorem volume_ratio_guard (stock : StockData) (cap : ℚ)
    (h : stock.avg_volume_90d ≤ 0) :
    weekly_volume_ratio stock cap = 0 ∧ daily_volume_ratio stock cap = 0 := by
  unfold weekly_volume_ratio daily_volume_ratio
  rw [if_pos h, if_pos h]
  exact ⟨rfl, rfl⟩

/-- C7 witness: the all-zero record has `avg_volume_90d = 0 ≤ 0` and both
sub-scores evaluate to 0 at cap 25. -/
theorem volume_ratio_guard_witness :
    weekly_volume_ratio zeroStock 25 = 0 ∧ daily_volume_ratio zeroStock 25 = 0 :=
  volume_ratio_guard zeroStock 25 (by norm_num [zeroStock])

/-- C3 counterexample: beta = 0.3 is strictly below 0.5, yet the beta tier
scores it 12 (the `beta ≤ beta_moderate_max` branch), not 0: the claim that
it falls through every branch to the final else is false on the code. -/
theorem beta_below_half_not_zero :
    (3:ℚ)/10 < 1/2 ∧ beta_score defaultSettings (3/10) = 12 ∧
    beta_score defaultSettings (3/10) ≠ 0 := by
  refine ⟨by norm_num, ?_, ?_⟩ <;>
    norm_num [beta_score, defaultSettings]

/-- C3 (amended): every beta strictly below 0.5 fails the stable-tier test
but immediately satisfies `beta ≤ beta_moderate_max` (default 1.5), so it
scores 12 — the moderate tier, not the final else of 0. -/
theorem beta_below_half_scores_moderate (beta : ℚ) (h : beta < 1/2) :
    beta_score defaultSettings beta = 12 := by
  have h1 : ¬((0.5:ℚ) ≤ beta ∧ beta ≤ defaultSettings.beta_stable_max) := by
    rintro ⟨hc, -⟩
    rw [show (0.5:ℚ) = 1/2 by norm_num] at hc
    linarith
  have h2 : beta ≤ defaultSettings.beta_moderate_max := by
    show beta ≤ (1.5:ℚ)
    rw [show (1.5:ℚ) = 3/2 by norm_num]
    linarith
  unfold beta_score
  rw [if_neg h1, if_pos h2]
  norm_num

/-- C3 witness: beta = 0.25 is below 0.5 and scores 12. -/
theorem beta_below_half_scores_moderate_witness :
    beta_score defaultSettings (1/4) = 12 :=
  beta_below_half_scores_moderate (1/4) (by norm_num)

/-- C5: the failing input for the third base-score tier. The record at 82%
of its 52-week high (inside `[80%, 90%)`) gets base score 8, not 12,
because the default `high_52w_uptrend_threshold` is 85.0 — contradicting
the inline comment `>= 80%` on that branch of `calculate_breakout_score`. -/
theorem uptrend_tier_is_85_not_80 :
    breakout_proximity_52w stock82pct = 82 ∧
    ((80:ℚ) ≤ 82 ∧ (82:ℚ) < 90) ∧
    defaultSettings.high_52w_uptrend_threshold = 85 ∧
    breakout_base_score defaultSettings stock82pct
      (breakout_proximity_52w stock82pct) = 8 := by
  have hprox : breakout_proximity_52w stock82pct = 82 := by
    norm_num [breakout_proximity_52w, stock82pct, zeroStock]
  refine ⟨hprox, by norm_num, by norm_num [defaultSettings], ?_⟩
  rw [hprox]
  norm_num [breakout_base_score, defaultSettings, stock82pct, zeroStock]

/-- C8: with the other four performances 0 and the default sub-weights,
raising `perf_6m` by `delta` raises the price-momentum score by exactly
`0.35 × delta` (linearity in the 6-month performance). -/
theorem price_momentum_linear_in_6m (stock : StockData) (delta : ℚ)
    (h3m : stock.perf_3m = 0) (h1m : stock.perf_1m = 0)
    (h1y : stock.perf_1y = 0) (h1w : stock.perf_1w = 0) :
    calculate_price_momentum defaultSettings
        { stock with perf_6m := stock.perf_6m + delta } =
      calculate_price_momentum defaultSettings stock + 35/100 * delta := by
  simp only [calculate_price_momentum, defaultSettings, h3m, h1m, h1y, h1w]
  norm_num
  ring

/-- C8 witness: at the all-zero record, raising `perf_6m` by 4 raises the
score by `0.35 × 4 = 1.4`. -/
theorem price_momentum_linear_in_6m_witness :
    calculate_price_momentum defaultSettings
        { zeroStock with perf_6m := zeroStock.perf_6m + 4 } =
      calculate_price_momentum defaultSettings zeroStock + 35/100 * 4 :=
  price_momentum_linear_in_6m zeroStock 4 rfl rfl rfl rfl

/-- C9: the analytics of the empty ranked collection is the all-zero/empty
summary; the function returns it directly, raising no exception. -/
theorem analytics_of_empty :
    calculate_analytics [] =
      { total_stocks := 0, avg_score := 0, avg_confidence := 0,
        top_20_avg_score := 0, earnings_safe_count := 0,
        trending_industries := [], sector_distribution := [],
        top_movers := [], top_movers_1w := [], top_movers_1m := [],
        top_movers_6m := [], volume_leaders := [], breakout_candidates := [] } :=
  rfl

/-- C4: evaluated at the failing input `[]`, the ranker yields no result:
the logging statement at line 59 of `stock_ranker.py` indexes `scored[0]`
inside an f-string, which raises `IndexError` on the empty list (modelled
as `none`), instead of returning the empty ranked list the spec promises. -/
theorem rank_stocks_empty_input_fails :
    rank_stocks defaultSettings 0 [] = none :=
  rfl

/-- C2 counterexample: with the all-zero record and components whose price
momentum is −600 (attainable, since price momentum is an unclamped weighted
sum of performances), the momentum contribution is −150 and the final
confidence is −145 < 0: confidence is not bounded below by 0. -/
theorem confidence_below_zero :
    calculate_confidence zeroStock (some negativeComponents) < 0 := by
  norm_num [calculate_confidence, confidence_ath_points, zeroStock,
    negativeComponents, min_def]

/-- C2 (amended): confidence never exceeds 100 for any record and any
optional components; and when no components are supplied every additive
term is non-negative, so confidence also lies in `[0, 100]`. The lower
bound can fail only through the momentum contribution of supplied
components. -/
theorem confidence_upper_bound (stock : StockData)
    (components : Option ScoreComponents) :
    calculate_confidence stock components ≤ 100 ∧
    (components = none → 0 ≤ calculate_confidence stock components) := by
  constructor
  · unfold calculate_confidence
    dsimp only
    exact le_trans (min_le_right _ _) (by norm_num)
  · rintro rfl
    have hath : 0 ≤ confidence_ath_points stock := by
      unfold confidence_ath_points
      dsimp only
      split_ifs <;> norm_num
    unfold calculate_confidence
    dsimp only
    refine le_min ?_ (by norm_num)
    split_ifs <;> norm_num <;> linarith

/-- C2 witness: at the all-zero record with no components the confidence is
within `[0, 100]`. -/
theorem confidence_upper_bound_witness :
    calculate_confidence zeroStock none ≤ 100 ∧
    0 ≤ calculate_confidence zeroStock none :=
  ⟨(confidence_upper_bound zeroStock none).1,
   (confidence_upper_bound zeroStock none).2 rfl⟩

/-! ### Ranking invariants (C1) -/

/-- Helper: the descending score ordering is transitive. -/
theorem scoreDescLE_trans (a b c : StockData × ScoreComponents × ℚ) :
    scoreDescLE a b → scoreDescLE b c → scoreDescLE a c := by
  simp only [scoreDescLE, decide_eq_true_eq]
  exact fun h1 h2 => le_trans h2 h1

/-- Helper: the descending score ordering is total. -/
theorem scoreDescLE_total (a b : StockData × ScoreComponents × ℚ) :
    scoreDescLE a b || scoreDescLE b a := by
  simp only [scoreDescLE, Bool.or_eq_true, decide_eq_true_eq]
  exact le_total b.2.2 a.2.2

/-- Helper: adding one to each element of `range n` gives `range' 1 n`. -/
theorem map_add_one_range (n : ℕ) :
    (List.range n).map (fun i => i + 1) = List.range' 1 n := by
  rw [List.range'_eq_map_range]
  exact List.map_congr_left (fun i _ => Nat.add_comm i 1)

/-- Helper: the ranks of the built ranked list are `1, 2, …, n`. -/
theorem rankFromSorted_map_rank (s : Settings) (t : ℤ)
    (srt : List (StockData × ScoreComponents × ℚ)) :
    (rankFromSorted s t srt).map (·.rank) = List.range' 1 srt.length := by
  have h := congrArg (List.map (fun i => i + 1)) (List.enum_map_fst srt)
  rw [List.map_map] at h
  rw [map_add_one_range] at h
  calc (rankFromSorted s t srt).map (·.rank)
      = srt.enum.map ((fun i => i + 1) ∘ Prod.fst) := by
        simp [rankFromSorted, List.map_map, mkRankedStock, Function.comp]
    _ = List.range' 1 srt.length := h

/-- Helper: dropping the scores from the ranked list gives the underlying
sorted stocks. -/
theorem rankFromSorted_map_data (s : Settings) (t : ℤ)
    (srt : List (StockData × ScoreComponents × ℚ)) :
    (rankFromSorted s t srt).map (·.data) = srt.map (·.1) := by
  have h := congrArg (List.map (fun e : StockData × ScoreComponents × ℚ => e.1))
    (List.enum_map_snd srt)
  rw [List.map_map] at h
  calc (rankFromSorted s t srt).map (·.data)
      = srt.enum.map ((fun e : StockData × ScoreComponents × ℚ => e.1) ∘ Prod.snd) := by
        simp [rankFromSorted, List.map_map, mkRankedStock, Function.comp]
    _ = srt.map (·.1) := h

/-- Helper: a pairwise relation on a list lifts to its enumeration. -/
theorem pairwise_enumFrom {α : Type} {R : α → α → Prop} (l : List α) :
    ∀ n, l.Pairwise R → (l.enumFrom n).Pairwise (fun p q => R p.2 q.2) := by
  induction l with
  | nil => intro n _; simp
  | cons a l ih =>
      intro n h
      rw [List.enumFrom_cons]
      rcases List.pairwise_cons.mp h with ⟨ha, hl⟩
      refine List.pairwise_cons.mpr ⟨?_, ih (n+1) hl⟩
      intro p hp
      apply ha
      have h2 : p.2 ∈ (l.enumFrom (n+1)).map Prod.snd := List.mem_map_of_mem _ hp
      rwa [List.enumFrom_map_snd] at h2

/-- Helper: sorted total scores transfer to the ranked list. -/
theorem rankFromSorted_pairwise (s : Settings) (t : ℤ)
    (srt : List (StockData × ScoreComponents × ℚ))
    (h : srt.Pairwise (fun a b => b.2.2 ≤ a.2.2)) :
    (rankFromSorted s t srt).Pairwise
      (fun a b => b.total_score ≤ a.total_score) := by
  unfold rankFromSorted
  rw [List.pairwise_map]
  have henum := pairwise_enumFrom srt 0 h
  exact henum.imp (fun hpq => hpq)

/-- Helper: every ranked stock's top flag agrees with its rank versus the
configured top count. -/
theorem rankFromSorted_is_top (s : Settings) (t : ℤ)
    (srt : List (StockData × ScoreComponents × ℚ))
    (r : RankedStock) (hr : r ∈ rankFromSorted s t srt) :
    r.is_top = decide (r.rank ≤ s.top_stocks_count) := by
  unfold rankFromSorted at hr
  rw [List.mem_map] at hr
  obtain ⟨p, -, rfl⟩ := hr
  rfl

/-- Helper: the number of indices `i < n` with `i + 1 ≤ K` is `min n K`. -/
theorem countP_range_rank_le (K : ℕ) :
    ∀ n, (List.range n).countP (fun i => decide (i + 1 ≤ K)) = min n K := by
  intro n
  induction n with
  | zero => simp
  | succ n ih =>
      rw [List.range_succ, List.countP_append, ih]
      by_cases h : n + 1 ≤ K
      all_goals simp [List.countP_cons, h]
      all_goals omega

/-- Helper: exactly `min n top_stocks_count` ranked stocks carry the top
flag. -/
theorem rankFromSorted_count_top (s : Settings) (t : ℤ)
    (srt : List (StockData × ScoreComponents × ℚ)) :
    ((rankFromSorted s t srt).filter (·.is_top)).length =
      min srt.length s.top_stocks_count := by
  unfold rankFromSorted
  rw [← List.countP_eq_length_filter, List.countP_map]
  have hcomp : ((fun r : RankedStock => r.is_top) ∘
      (fun p : ℕ × (StockData × ScoreComponents × ℚ) => mkRankedStock s t p.1 p.2)) =
      ((fun i => decide (i + 1 ≤ s.top_stocks_count)) ∘ Prod.fst) := rfl
  rw [hcomp, ← List.countP_map, List.enum_map_fst, countP_range_rank_le]

/-- Helper: on a non-empty input, `rank_stocks` succeeds and returns the
ranked version of the stably sorted scored list. -/
theorem rank_stocks_cons (settings : Settings) (today : ℤ) (s0 : StockData)
    (rest : List StockData) :
    rank_stocks settings today (s0 :: rest) =
      some (rankFromSorted settings today
        (List.mergeSort (scoredList settings (s0 :: rest)) scoreDescLE)) := rfl

/-- C1: whenever the ranker produces an output, that output has one entry
per input record; its ranks are exactly `1..N` in order (dense, contiguous,
1-based, hence strictly increasing and never equal); total scores are
non-increasing along it; records with equal totals keep their original
input order (stability of the sort); and the top flag is set exactly on the
ranks up to `top_stocks_count`, so exactly `min N top_stocks_count` records
carry it. -/
theorem rank_stocks_ranking_invariants (settings : Settings) (today : ℤ)
    (stocks : List StockData) (l : List RankedStock)
    (h : rank_stocks settings today stocks = some l) :
    l.length = stocks.length ∧
    l.map (·.rank) = List.range' 1 stocks.length ∧
    l.Pairwise (fun a b => b.total_score ≤ a.total_score) ∧
    (∀ x y : StockData, [x, y].Sublist stocks →
        calculate_total_score settings (calculate_components settings x) =
          calculate_total_score settings (calculate_components settings y) →
        [x, y].Sublist (l.map (·.data))) ∧
    (∀ r ∈ l, r.is_top = decide (r.rank ≤ settings.top_stocks_count)) ∧
    (l.filter (·.is_top)).length = min stocks.length settings.top_stocks_count := by
  cases stocks with
  | nil =>
      have hnil : rank_stocks settings today [] = none := rfl
      rw [hnil] at h
      exact absurd h (by simp)
  | cons s0 rest =>
      rw [rank_stocks_cons, Option.some_inj] at h
      subst h
      have hlen : (List.mergeSort (scoredList settings (s0 :: rest)) scoreDescLE).length
          = (s0 :: rest).length := by
        rw [List.length_mergeSort]
        simp [scoredList]
      have hsorted := List.sorted_mergeSort scoreDescLE_trans scoreDescLE_total
        (scoredList settings (s0 :: rest))
      have hsorted' : (List.mergeSort (scoredList settings (s0 :: rest))
          scoreDescLE).Pairwise (fun a b => b.2.2 ≤ a.2.2) := by
        refine hsorted.imp ?_
        intro a b hab
        simpa [scoreDescLE] using hab
      refine ⟨?_, ?_, ?_, ?_, ?_, ?_⟩
      · simp only [rankFromSorted, List.length_map, List.enum_length]
        exact hlen
      · rw [rankFromSorted_map_rank, hlen]
      · exact rankFromSorted_pairwise _ _ _ hsorted'
      · intro x y hxy hEq
        have h1 : [scoredEntry settings x, scoredEntry settings y].Sublist
            (scoredList settings (s0 :: rest)) := by
          simpa [scoredList] using hxy.map (scoredEntry settings)
        have hle : scoreDescLE (scoredEntry settings x) (scoredEntry settings y) = true := by
          simp only [scoreDescLE, decide_eq_true_eq, scoredEntry]
          exact le_of_eq hEq.symm
        have h2 := List.pair_sublist_mergeSort scoreDescLE_trans scoreDescLE_total hle h1
        have h3 := h2.map (fun e : StockData × ScoreComponents × ℚ => e.1)
        rw [rankFromSorted_map_data]
        simpa [scoredEntry] using h3
      · exact rankFromSorted_is_top _ _ _
      · rw [rankFromSorted_count_top, hlen]

/-- A record differing from the all-zero one only in symbol and a positive
6-month performance, so its total score is strictly higher. -/
def highStock : StockData :=
  { zeroStock with symbol := "HIGH", perf_6m := 10 }

/-- The two-record input used by the C1 witness. -/
def witnessStocks : List StockData := [zeroStock, highStock]

/-- The ranked output the ranker produces on `witnessStocks`. -/
def witnessRanked : List RankedStock :=
  rankFromSorted defaultSettings 0
    (List.mergeSort (scoredList defaultSettings witnessStocks) scoreDescLE)

/-- C1 witness: the invariants instantiated on a concrete two-record input,
with the `rank_stocks … = some …` hypothesis discharged by computation. -/
theorem rank_stocks_ranking_invariants_witness :
    witnessRanked.length = witnessStocks.length ∧
    witnessRanked.map (·.rank) = List.range' 1 witnessStocks.length ∧
    witnessRanked.Pairwise (fun a b => b.total_score ≤ a.total_score) ∧
    (∀ x y : StockData, [x, y].Sublist witnessStocks →
        calculate_total_score defaultSettings (calculate_components defaultSettings x) =
          calculate_total_score defaultSettings (calculate_components defaultSettings y) →
        [x, y].Sublist (witnessRanked.map (·.data))) ∧
    (∀ r ∈ witnessRanked, r.is_top = decide (r.rank ≤ defaultSettings.top_stocks_count)) ∧
    (witnessRanked.filter (·.is_top)).length =
      min witnessStocks.length defaultSettings.top_stocks_count :=
  rank_stocks_ranking_invariants defaultSettings 0 witnessStocks witnessRanked rfl

end Momentum
